import Mathlib

/-!
Verification development for the html-games repository (Flappy-Bird variant
with MIDI piano input).  The definitions below are shallow embeddings of the
JavaScript sources:

* `src/piano-input-mapper.js` — the `PianoInputMapper` class (note/chord
  detection over the set of currently held MIDI notes);
* `src/game.js` — the practice-mode bird physics, collision resolution and
  scroll gating, together with the tracking glue (`endTrackingSession`,
  `handlePianoAction`);
* `src/piano-tracker.js` — the `PianoTracker` event/session reporter.

Machine numbers of the JavaScript sources are embedded as `Nat` (MIDI data
bytes), `Int` (timestamps, identifiers) and `Rat` (the physics quantities).
Network and DOM effects are represented by explicit request lists and state
passing.
-/

namespace HtmlGames

/-! ## PianoInputMapper (src/piano-input-mapper.js) -/

/-- The `noteToMidi` lookup table of `PianoInputMapper`: note name to pitch
class.  A name outside the table (JavaScript `undefined`) is `none`. -/
def noteToMidi (s : String) : Option Nat :=
  if s = "C" then some 0
  else if s = "C#" then some 1
  else if s = "Db" then some 1
  else if s = "D" then some 2
  else if s = "D#" then some 3
  else if s = "Eb" then some 3
  else if s = "E" then some 4
  else if s = "F" then some 5
  else if s = "F#" then some 6
  else if s = "Gb" then some 6
  else if s = "G" then some 7
  else if s = "G#" then some 8
  else if s = "Ab" then some 8
  else if s = "A" then some 9
  else if s = "A#" then some 10
  else if s = "Bb" then some 10
  else if s = "B" then some 11
  else none

/-- The `chordPatterns` table of `PianoInputMapper`: chord quality to interval
pattern.  A quality outside the table is `none`. -/
def chordPatterns (s : String) : Option (List Nat) :=
  if s = "Major" then some [0, 4, 7]
  else if s = "Minor" then some [0, 3, 7]
  else if s = "Diminished" then some [0, 3, 6]
  else if s = "Augmented" then some [0, 4, 8]
  else none

/-- The JavaScript `Set` of active MIDI notes is embedded as its iteration
sequence: a list of the held note numbers in insertion order, without
duplicates.  `Set.add` appends a missing element. -/
def setAdd (activeNotes : List Nat) (note : Nat) : List Nat :=
  if note ∈ activeNotes then activeNotes else activeNotes ++ [note]

/-- Embeds `Set.delete`, which removes an element. -/
def setDelete (activeNotes : List Nat) (note : Nat) : List Nat :=
  activeNotes.erase note

/-- Embeds `PianoInputMapper.isNotePressed`: some active MIDI note matches the target
pitch class modulo 12 (the `for ... of` loop over the set). -/
def isNotePressed (activeNotes : List Nat) (noteName : String) : Bool :=
  match noteToMidi noteName with
  | none => false
  | some noteValue =>
    activeNotes.any (fun midiNote => midiNote % 12 == noteValue)

/-- Embeds `PianoInputMapper.isChordPressed`: the expected triad pitch classes are all
present among the active pitch classes (`allPresent`) and the number of active
notes equals the pattern length (`noExtras` — note: the length of the
pitch-class array before any deduplication). -/
def isChordPressed (activeNotes : List Nat) (rootNote chordType : String) : Bool :=
  match noteToMidi rootNote with
  | none => false
  | some rootValue =>
    match chordPatterns chordType with
    | none => false
    | some pattern =>
      let expectedNotes := pattern.map (fun interval => (rootValue + interval) % 12)
      let activeNormalized := activeNotes.map (fun n => n % 12)
      let allPresent := expectedNotes.all (fun note => activeNormalized.contains note)
      let noExtras := activeNormalized.length == expectedNotes.length
      allPresent && noExtras

/-- The mapper's `config` object. -/
structure MapperConfig where
  mode : String
  upNote : String
  downNote : String
  upChord : String
  upChordType : String
  downChord : String
  downChordType : String
deriving DecidableEq

/-- The mapper's derived `state` object. -/
structure ActionState where
  up : Bool
  down : Bool
deriving DecidableEq

/-- A partial configuration: the argument of `updateConfig` (JavaScript object
spread — absent keys leave the old value). -/
structure PartialConfig where
  mode : Option String := none
  upNote : Option String := none
  downNote : Option String := none
  upChord : Option String := none
  upChordType : Option String := none
  downChord : Option String := none
  downChordType : Option String := none

/-- Embeds `{ ...this.config, ...newConfig }`. -/
def mergeConfig (c : MapperConfig) (p : PartialConfig) : MapperConfig where
  mode := p.mode.getD c.mode
  upNote := p.upNote.getD c.upNote
  downNote := p.downNote.getD c.downNote
  upChord := p.upChord.getD c.upChord
  upChordType := p.upChordType.getD c.upChordType
  downChord := p.downChord.getD c.downChord
  downChordType := p.downChordType.getD c.downChordType

/-- Embeds `PianoInputMapper.updateState` as a pure function of the active-note set
and the configuration: the mode dispatch of `updateState`. -/
def computeState (config : MapperConfig) (activeNotes : List Nat) : ActionState :=
  if config.mode = "Note" then
    { up := isNotePressed activeNotes config.upNote
      down := isNotePressed activeNotes config.downNote }
  else
    { up := isChordPressed activeNotes config.upChord config.upChordType
      down := isChordPressed activeNotes config.downChord config.downChordType }

/-- The mutable fields of a `PianoInputMapper` relevant to input mapping. -/
structure Mapper where
  config : MapperConfig
  state : ActionState
  activeNotes : List Nat

/-- Embeds `PianoInputMapper.handleMIDI`: destructure the three data bytes, mutate the
active-note set (note-on 0x90 with velocity > 0, note-off 0x80 or 0x90 with
velocity 0), then `updateState`. -/
def handleMIDI (m : Mapper) (status note velocity : Nat) : Mapper :=
  let activeNotes :=
    if status = 144 ∧ velocity > 0 then setAdd m.activeNotes note
    else if status = 128 ∨ (status = 144 ∧ velocity = 0) then setDelete m.activeNotes note
    else m.activeNotes
  { config := m.config
    activeNotes := activeNotes
    state := computeState m.config activeNotes }

/-- Embeds `PianoInputMapper.updateConfig`: merge the partial config, then
`updateState`. -/
def updateConfig (m : Mapper) (p : PartialConfig) : Mapper :=
  let config := mergeConfig m.config p
  { config := config
    activeNotes := m.activeNotes
    state := computeState config m.activeNotes }

/-! ## Practice physics and scroll gating (src/game.js)

Positions and velocities are JavaScript numbers, embedded as `Rat`.
Timestamps (`Date.now()`) are embedded as `Int` milliseconds.  The canvas
height comes from the HTML document and is kept as a parameter `H`. -/

/-- The mutable numeric fields of the global `bird` object. -/
structure Bird where
  x : ℚ
  y : ℚ
  radius : ℚ
  velocity : ℚ
  velocityX : ℚ
deriving DecidableEq

/-- A pipe object as pushed by `updatePipes`. -/
structure Pipe where
  x : ℚ
  top : ℚ
  bottom : ℚ
deriving DecidableEq

/-- The practice-mode scroll-gate globals: `pipeScrollEnabled`,
`lastCollisionY`, `collisionPipe`, `collisionTime`. -/
structure Scroll where
  pipeScrollEnabled : Bool
  lastCollisionY : ℚ
  collisionPipe : Option Pipe
  collisionTime : ℤ
deriving DecidableEq

/-- The state touched by `updateBird` and the practice-mode collision code. -/
structure PracticeState where
  bird : Bird
  scroll : Scroll
deriving DecidableEq

/-- Embeds `bird.gravity`. -/
def birdGravity : ℚ := 0.05

/-- Embeds `bird.upThrust`. -/
def birdUpThrust : ℚ := -0.35

/-- Embeds `bird.downThrust`. -/
def birdDownThrust : ℚ := 0.35

/-- Embeds `bird.maxVelocity`. -/
def birdMaxVelocity : ℚ := 4

/-- Embeds `pipeWidth`. -/
def pipeWidth : ℚ := 60

/-- Embeds `autoResumeDelay` (milliseconds). -/
def autoResumeDelay : ℤ := 1000

/-- Embeds `bounceDampening` in `handlePracticeCollisions`. -/
def bounceDampening : ℚ := 0.6

/-- Embeds `checkScrollResume`: while gated in practice mode, re-enable scrolling on
timeout, or — when a collision pipe is recorded — when the bird is strictly
inside the gap band or has moved more than 40 from the recorded contact y;
any release clears `collisionPipe`. -/
def checkScrollResume (practiceMode : Bool) (now : ℤ) (st : PracticeState) :
    PracticeState :=
  if practiceMode ∧ st.scroll.pipeScrollEnabled = false then
    let timeSinceCollision := now - st.scroll.collisionTime
    if timeSinceCollision > autoResumeDelay then
      { st with scroll := { st.scroll with pipeScrollEnabled := true, collisionPipe := none } }
    else
      match st.scroll.collisionPipe with
      | some p =>
        let inGap := st.bird.y > p.top ∧ st.bird.y < p.bottom
        let clearedVertically := |st.bird.y - st.scroll.lastCollisionY| > 40
        if inGap ∨ clearedVertically then
          { st with scroll := { st.scroll with pipeScrollEnabled := true, collisionPipe := none } }
        else st
      | none => st
  else st

/-- Embeds `updateBird`: thrust integration, clamp to `±maxVelocity`, position
integration, horizontal bounce decay (practice mode), drag `* 0.98`, then
`checkScrollResume`. -/
def updateBird (practiceMode up down : Bool) (gameSpeed : ℚ) (now : ℤ)
    (st : PracticeState) : PracticeState :=
  let b := st.bird
  let v1 := if up then b.velocity + birdUpThrust else b.velocity
  let v2 := if down then v1 + birdDownThrust else v1
  let v3 := if ¬up ∧ ¬down then v2 + birdGravity * gameSpeed else v2
  let v4 := max (-birdMaxVelocity) (min birdMaxVelocity v3)
  let y1 := b.y + v4 * gameSpeed
  let xvx :=
    if practiceMode ∧ b.velocityX ≠ 0 then
      let x1 := b.x + b.velocityX * gameSpeed
      let vx1 := b.velocityX * 0.95
      if |vx1| < 0.1 then ((80 : ℚ), (0 : ℚ)) else (x1, vx1)
    else (b.x, b.velocityX)
  let v5 := v4 * 0.98
  let st1 : PracticeState :=
    { bird := { b with y := y1, x := xvx.1, velocityX := xvx.2, velocity := v5 }
      scroll := st.scroll }
  checkScrollResume practiceMode now st1

/-- The `if (pipeScrollEnabled) { ... }` block repeated in each collision
branch of `handlePracticeCollisions`: gate scroll off and record the contact,
but only while scroll is still enabled. -/
def recordContact (now : ℤ) (y : ℚ) (p : Pipe) (sc : Scroll) : Scroll :=
  if sc.pipeScrollEnabled then
    { pipeScrollEnabled := false, lastCollisionY := y, collisionPipe := some p,
      collisionTime := now }
  else sc

/-- Ground and ceiling branches of `handlePracticeCollisions`. -/
def groundCeilingCollide (H : ℚ) (st : PracticeState) : PracticeState :=
  let st1 :=
    if st.bird.y + st.bird.radius > H - 50 then
      { st with bird := { st.bird with
          y := H - 50 - st.bird.radius,
          velocity := -|st.bird.velocity| * bounceDampening } }
    else st
  if st1.bird.y - st1.bird.radius < 0 then
    { st1 with bird := { st1.bird with
        y := st1.bird.radius,
        velocity := |st1.bird.velocity| * bounceDampening } }
  else st1

/-- The top-pipe and bottom-pipe branches of `handlePracticeCollisions`
(guarded by the horizontal-range check). -/
def pipeVerticalCollide (now : ℤ) (st : PracticeState) (p : Pipe) : PracticeState :=
  if st.bird.x + st.bird.radius > p.x ∧ st.bird.x - st.bird.radius < p.x + pipeWidth then
    let st1 :=
      if st.bird.y - st.bird.radius < p.top ∧ st.bird.y > p.top - st.bird.radius * 2 then
        let b := { st.bird with
            y := p.top + st.bird.radius,
            velocity := |st.bird.velocity| * bounceDampening }
        { bird := b, scroll := recordContact now b.y p st.scroll }
      else st
    if st1.bird.y + st1.bird.radius > p.bottom ∧ st1.bird.y < p.bottom + st1.bird.radius * 2 then
      let b := { st1.bird with
          y := p.bottom - st1.bird.radius,
          velocity := -|st1.bird.velocity| * bounceDampening }
      { bird := b, scroll := recordContact now b.y p st1.scroll }
    else st1
  else st

/-- The leading-edge (left side) branch of `handlePracticeCollisions`. -/
def pipeSideCollide (now : ℤ) (st : PracticeState) (p : Pipe) : PracticeState :=
  if st.bird.x + st.bird.radius > p.x ∧ st.bird.x < p.x + pipeWidth / 2 ∧
      (st.bird.y < p.top ∨ st.bird.y > p.bottom) then
    if st.bird.x < p.x + st.bird.radius then
      let vx0 := if st.bird.velocityX = 0 then (2 : ℚ) else st.bird.velocityX
      let b := { st.bird with
          x := p.x - st.bird.radius - 1,
          velocityX := -|vx0| * bounceDampening,
          velocity := st.bird.velocity * bounceDampening }
      { bird := b, scroll := recordContact now b.y p st.scroll }
    else st
  else st

/-- The body of the `pipes.forEach` loop in `handlePracticeCollisions`. -/
def pipeCollide (now : ℤ) (st : PracticeState) (p : Pipe) : PracticeState :=
  pipeSideCollide now (pipeVerticalCollide now st p) p

/-- Embeds `handlePracticeCollisions`: ground, ceiling, then every pipe in order. -/
def handlePracticeCollisions (H : ℚ) (now : ℤ) (st : PracticeState)
    (pipes : List Pipe) : PracticeState :=
  pipes.foldl (pipeCollide now) (groundCeilingCollide H st)

/-! ## PianoTracker (src/piano-tracker.js) and tracking glue (src/game.js)

Network effects are embedded as an explicit list of emitted requests.
Identifiers and timestamps are JavaScript numbers, embedded as `Int`;
`null` is `Option.none`. -/

/-- The event object built by `PianoTracker.trackEvent`. -/
structure TrackerEvent where
  sessionId : ℤ
  expectedChordId : Option ℤ
  playedChordId : Option ℤ
  isCorrect : Bool
  responseTimeMs : ℤ
  positionInProgression : ℕ
  handUsed : String
  transitionFromChordId : Option ℤ
deriving DecidableEq

/-- A network request issued by the tracker (`fetch` calls, payload fields
that the claims are about). -/
inductive Request where
  | batch (events : List TrackerEvent)
  | chordEvent (event : TrackerEvent)
  | endSessionReq (sessionId : ℤ) (finalScore : ℤ) (successCount errorCount : ℕ)
deriving DecidableEq

/-- The mutable fields of a `PianoTracker` relevant to event recording.
A JavaScript-falsy `sessionId` (`null` or `0`) means no active session. -/
structure Tracker where
  sessionId : Option ℤ
  batchMode : Bool
  batchSize : ℕ
  eventQueue : List TrackerEvent
  lastChordId : Option ℤ

/-- The `!this.sessionId` guard: `null` and `0` are both falsy. -/
def Tracker.noSession (t : Tracker) : Bool :=
  match t.sessionId with
  | none => true
  | some sid => sid == 0

/-- Embeds `PianoTracker.flushQueue`: emit the queued events as one batch request and
clear the queue (a no-op on an empty queue). -/
def Tracker.flushQueue (t : Tracker) : Tracker × List Request :=
  if t.eventQueue = [] then (t, [])
  else ({ t with eventQueue := [] }, [Request.batch t.eventQueue])

/-- Embeds `PianoTracker.trackEvent`: with an active session, build the event
(correctness flag `expectedId === playedId && expectedId !== null &&
playedId !== null`), queue it (flushing a full batch) or send it immediately,
and remember the played id.  The built event is also returned so the claims
can speak about it. -/
def Tracker.trackEvent (t : Tracker) (expectedId playedId : Option ℤ)
    (responseTimeMs : ℤ) (position : ℕ) (hand : String) :
    Tracker × List Request × Option TrackerEvent :=
  if t.noSession then (t, [], none)
  else
    let sid := t.sessionId.getD 0
    let event : TrackerEvent :=
      { sessionId := sid
        expectedChordId := expectedId
        playedChordId := playedId
        isCorrect := (expectedId == playedId) && expectedId.isSome && playedId.isSome
        responseTimeMs := responseTimeMs
        positionInProgression := position
        handUsed := hand
        transitionFromChordId := t.lastChordId }
    let next :=
      if t.batchMode then
        let queue := t.eventQueue ++ [event]
        if queue.length ≥ t.batchSize then ({ t with eventQueue := [] }, [Request.batch queue])
        else ({ t with eventQueue := queue }, ([] : List Request))
      else (t, [Request.chordEvent event])
    ({ next.1 with lastChordId := playedId }, next.2, some event)

/-- Embeds `PianoTracker.endSession`: with an active session, flush any queued
batched events first, then post the end-of-session report, then clear the
session. -/
def Tracker.endSession (t : Tracker) (finalScore : ℤ)
    (successCount errorCount : ℕ) : Tracker × List Request :=
  if t.noSession then (t, [])
  else
    let sid := t.sessionId.getD 0
    let flushed :=
      if t.batchMode ∧ t.eventQueue ≠ [] then t.flushQueue else (t, [])
    ({ flushed.1 with sessionId := none, lastChordId := none },
      flushed.2 ++ [Request.endSessionReq sid finalScore successCount errorCount])

/-- Embeds `trackingState.expectedIds` / `trackingState.lastPromptTimes` — objects
indexed by the action name `"up"` or `"down"`. -/
structure ActionPair (α : Type) where
  up : α
  down : α
deriving DecidableEq

/-- JavaScript property access `obj[action]`: an unknown key is `undefined`. -/
def ActionPair.get (pair : ActionPair (Option α)) (action : String) : Option α :=
  if action = "up" then pair.up
  else if action = "down" then pair.down
  else none

/-- JavaScript property assignment `obj[action] = v`. -/
def ActionPair.set (pair : ActionPair (Option α)) (action : String) (v : α) :
    ActionPair (Option α) :=
  if action = "up" then { pair with up := some v }
  else if action = "down" then { pair with down := some v }
  else pair

/-- The `details` object passed to `handlePianoAction` by the mapper. -/
structure ActionDetails where
  triggerNote : Option ℤ
  midiNotes : List ℤ
  timestamp : Option ℤ

/-- Embeds `buildChordSignature` (game.js): deduplicated pitch classes of the played
notes, sorted ascending, joined with `-`. -/
def buildChordSignature (midiNotes : List ℤ) : String :=
  let pitchClasses := (midiNotes.map (fun n => (n % 12 + 12) % 12)).toFinset
  String.intercalate "-" ((pitchClasses.sort (· ≤ ·)).map toString)

/-- The mutable fields of `trackingState` (game.js).  The two lookup `Map`s
are embedded as functions (a missing key gives `none`). -/
structure TrackingState where
  enabled : Bool
  ready : Bool
  tracker : Option Tracker
  mode : String
  noteIdByPitchClass : ℤ → Option ℤ
  chordIdBySignature : String → Option ℤ
  expectedIds : ActionPair (Option ℤ)
  sessionActive : Bool
  sequence : ℕ
  lastPromptTimes : ActionPair (Option ℤ)
  successCount : ℕ
  errorCount : ℕ

/-- Embeds `isTrackingConfigured` (game.js). -/
def isTrackingConfigured (ts : TrackingState) : Bool :=
  ts.enabled && ts.ready && ts.tracker.isSome

/-- Embeds `lookupPlayedId` (game.js): note mode resolves the trigger note (or the
first played note) to an id through the pitch-class map; chord mode resolves
the sorted-deduplicated pitch-class signature through the signature map. -/
def lookupPlayedId (ts : TrackingState) (details : Option ActionDetails) : Option ℤ :=
  match details with
  | none => none
  | some d =>
    if ts.mode = "Note" then
      let midi : Option ℤ :=
        match d.triggerNote with
        | some m => some m
        | none => d.midiNotes.head?
      match midi with
      | none => none
      | some m => ts.noteIdByPitchClass ((m % 12 + 12) % 12)
    else
      if d.midiNotes = [] then none
      else ts.chordIdBySignature (buildChordSignature d.midiNotes)

/-- Embeds `computeResponseTime` (game.js): delta from the last prompt time for the
action (defaulting to now), clamped at 0; the prompt time is updated. -/
def computeResponseTime (ts : TrackingState) (action : String) (timestamp : ℤ) :
    TrackingState × ℤ :=
  let previous := (ts.lastPromptTimes.get action).getD timestamp
  ({ ts with lastPromptTimes := ts.lastPromptTimes.set action timestamp },
    max 0 (timestamp - previous))

/-- Embeds `endTrackingSession` (game.js): with an active session, compute the final
score `max(0, successCount*10 - errorCount*2)` and end the tracker session. -/
def endTrackingSession (ts : TrackingState) : TrackingState × List Request :=
  match ts.tracker with
  | none => ({ ts with sessionActive := false }, [])
  | some tr =>
    if ts.sessionActive = false then ({ ts with sessionActive := false }, [])
    else
      let score : ℤ := max 0 ((ts.successCount : ℤ) * 10 - (ts.errorCount : ℤ) * 2)
      let ended := tr.endSession score ts.successCount ts.errorCount
      ({ ts with
          sessionActive := false
          tracker := some ended.1
          lastPromptTimes := { up := none, down := none } },
        ended.2)

/-- Embeds `handlePianoAction` (game.js): guarded by an active, configured session
and a truthy expected id; look up the played id, compute the response time,
bump the sequence, emit one tracker event, and update the success/error
counters (`playedId !== null && playedId === expectedId`). -/
def handlePianoAction (ts : TrackingState) (action : String)
    (details : Option ActionDetails) (now : ℤ) :
    TrackingState × List Request × Option TrackerEvent :=
  if ¬(ts.sessionActive = true ∧ isTrackingConfigured ts = true) then (ts, [], none)
  else
    match ts.tracker with
    | none => (ts, [], none)
    | some tr =>
      match ts.expectedIds.get action with
      | none => (ts, [], none)
      | some expectedId =>
        if expectedId = 0 then (ts, [], none)
        else
          let playedId := lookupPlayedId ts details
          let timestamp :=
            match details with
            | some d => match d.timestamp with
              | some t => if t = 0 then now else t
              | none => now
            | none => now
          let rt := computeResponseTime ts action timestamp
          let ts1 := rt.1
          let position := ts1.sequence + 1
          let ts2 := { ts1 with sequence := position }
          let hand := if ts2.mode = "Note" then "right" else "both"
          let tracked := tr.trackEvent (some expectedId) playedId rt.2 position hand
          let ts3 := { ts2 with tracker := some tracked.1 }
          let ts4 :=
            if playedId.isSome ∧ playedId = some expectedId then
              { ts3 with successCount := ts3.successCount + 1 }
            else
              { ts3 with errorCount := ts3.errorCount + 1 }
          (ts4, tracked.2.1, tracked.2.2)

/-- One contact-recording step may only leave the scroll state alone or take
it from enabled to gated; stated as a relation to compose across collision
branches. -/
def ScrollRel (a b : Scroll) : Prop :=
  b = a ∨ (a.pipeScrollEnabled = true ∧ b.pipeScrollEnabled = false)

/-- A concrete pipe used by witness instances. -/
def witnessPipe : Pipe := { x := 50, top := 100, bottom := 250 }

/-- A concrete gated practice state used by witness instances: contact with
`witnessPipe` recorded at time 0, bird above the gap. -/
def witnessScrollState : PracticeState :=
  { bird := { x := 80, y := 90, radius := 15, velocity := 0, velocityX := 0 }
    scroll := { pipeScrollEnabled := false, lastCollisionY := 95,
                collisionPipe := some witnessPipe, collisionTime := 0 } }

/-- A concrete practice state overlapping the ground (`H = 480`, so
`groundY = 430`) while already moving upward (negative velocity). -/
def groundStateUp : PracticeState :=
  { bird := { x := 80, y := 431, radius := 15, velocity := -2, velocityX := 0 }
    scroll := { pipeScrollEnabled := true, lastCollisionY := 0, collisionPipe := none,
                collisionTime := 0 } }

/-- A concrete practice state overlapping the ground while falling
(positive velocity). -/
def groundStateDown : PracticeState :=
  { bird := { x := 80, y := 431, radius := 15, velocity := 3, velocityX := 0 }
    scroll := { pipeScrollEnabled := true, lastCollisionY := 0, collisionPipe := none,
                collisionTime := 0 } }

/-- A concrete queued event used by witness instances. -/
def witnessEvent : TrackerEvent :=
  { sessionId := 7, expectedChordId := some 42, playedChordId := some 42,
    isCorrect := true, responseTimeMs := 100, positionInProgression := 1,
    handUsed := "right", transitionFromChordId := none }

/-- A concrete batching tracker with an active session and one queued
event. -/
def witnessTracker : Tracker :=
  { sessionId := some 7, batchMode := true, batchSize := 15,
    eventQueue := [witnessEvent], lastChordId := none }

/-- A concrete configured tracking state: Note mode, pitch class 0 mapping to
id 42, expected up-id 42, two successes and one error so far. -/
def witnessTrackingState : TrackingState :=
  { enabled := true, ready := true, tracker := some witnessTracker, mode := "Note",
    noteIdByPitchClass := fun pc => if pc = 0 then some 42 else none,
    chordIdBySignature := fun _ => none,
    expectedIds := { up := some 42, down := none },
    sessionActive := true, sequence := 3,
    lastPromptTimes := { up := some 0, down := none },
    successCount := 2, errorCount := 1 }

/-- Concrete details of a played middle C used by witness instances. -/
def witnessDetails : ActionDetails :=
  { triggerNote := some 60, midiNotes := [60], timestamp := some 5 }

/-! ## Theorems -/

theorem scrollRel_refl (a : Scroll) : ScrollRel a a := Or.inl rfl

theorem scrollRel_trans {a b c : Scroll} (h1 : ScrollRel a b) (h2 : ScrollRel b c) :
    ScrollRel a c := by
  rcases h1 with rfl | ⟨ha, hb⟩
  · exact h2
  · rcases h2 with rfl | ⟨hb', hc⟩
    · exact Or.inr ⟨ha, hb⟩
    · exact Or.inr ⟨ha, hc⟩

theorem scrollRel_record (now : ℤ) (y : ℚ) (p : Pipe) (sc : Scroll) :
    ScrollRel sc (recordContact now y p sc) := by
  unfold recordContact
  split_ifs with h
  · exact Or.inr ⟨h, rfl⟩
  · exact Or.inl rfl

/-- C2: in Note mode the action is on exactly when some active MIDI note has
the target pitch class, independent of octave. -/
theorem isNotePressed_iff_pitch_class (S : List Nat) (name : String) (p : Nat)
    (h : noteToMidi name = some p) :
    isNotePressed S name = true ↔ ∃ n ∈ S, n % 12 = p := by
  simp only [isNotePressed, h]
  rw [List.any_eq_true]
  constructor
  · rintro ⟨n, hn, hb⟩
    exact ⟨n, hn, by simpa using hb⟩
  · rintro ⟨n, hn, hb⟩
    exact ⟨n, hn, by simpa using hb⟩

/-- C2 witness: with target `C`, both `{60}` and `{72}` switch the action on. -/
theorem isNotePressed_iff_pitch_class_witness :
    noteToMidi "C" = some 0 ∧
    isNotePressed [60] "C" = true ∧
    isNotePressed [72] "C" = true :=
  ⟨rfl,
    (isNotePressed_iff_pitch_class [60] "C" 0 rfl).mpr ⟨60, by decide, by decide⟩,
    (isNotePressed_iff_pitch_class [72] "C" 0 rfl).mpr ⟨72, by decide, by decide⟩⟩

/-- C10: a target note name outside the lookup table, or a chord type outside
the pattern table, leaves the action off for every active-note set. -/
theorem unknown_config_action_off (S : List Nat) (name root chordType : String) :
    (noteToMidi name = none → isNotePressed S name = false) ∧
    (chordPatterns chordType = none → isChordPressed S root chordType = false) := by
  constructor
  · intro h
    simp [isNotePressed, h]
  · intro h
    unfold isChordPressed
    cases hr : noteToMidi root with
    | none => rfl
    | some rootValue => simp [h]

/-- C10 witness: the unrecognized name `H` and chord type `Sus4`. -/
theorem unknown_config_action_off_witness :
    noteToMidi "H" = none ∧ chordPatterns "Sus4" = none ∧
    isNotePressed [60] "H" = false ∧
    isChordPressed [60, 64, 67] "C" "Sus4" = false :=
  ⟨rfl, rfl,
    (unknown_config_action_off [60] "H" "C" "Sus4").1 rfl,
    (unknown_config_action_off [60, 64, 67] "H" "C" "Sus4").2 rfl⟩

/-- C8: after `handleMIDI` and after `updateConfig`, the action state equals
the pure recomputation from the resulting active-note set and configuration. -/
theorem actionState_recomputed (m : Mapper) (status note velocity : Nat)
    (p : PartialConfig) :
    (handleMIDI m status note velocity).state =
      computeState (handleMIDI m status note velocity).config
        (handleMIDI m status note velocity).activeNotes ∧
    (updateConfig m p).state =
      computeState (updateConfig m p).config (updateConfig m p).activeNotes :=
  ⟨rfl, rfl⟩

/-- The four chord patterns map to three pairwise distinct pitch classes for
every root value. -/
theorem pattern_map_nodup {chordType : String} (rootValue : Nat) (pattern : List Nat)
    (hp : chordPatterns chordType = some pattern) :
    (pattern.map (fun i => (rootValue + i) % 12)).Nodup := by
  unfold chordPatterns at hp
  split_ifs at hp <;> cases hp <;>
    refine List.nodup_cons.mpr ⟨?_, List.nodup_cons.mpr ⟨?_, List.nodup_singleton _⟩⟩ <;>
    simp only [List.map_cons, List.map_nil, List.mem_cons, List.mem_singleton,
      List.not_mem_nil, or_false] <;>
    first
      | (rintro (h | h) <;> omega)
      | (intro h; omega)

/-- C1 counterexample: the active set `{48, 60, 64, 67}` (the root C held in
two octaves plus E and G) has deduplicated pitch classes exactly `{0, 4, 7}` —
the C-Major target triad — yet `isChordPressed` is false, because the
`noExtras` check counts active notes before deduplication. -/
theorem chord_dedupe_claim_cex :
    noteToMidi "C" = some 0 ∧ chordPatterns "Major" = some [0, 4, 7] ∧
    ([48, 60, 64, 67].map (fun n => n % 12)).toFinset = ({0, 4, 7} : Finset Nat) ∧
    List.Nodup [48, 60, 64, 67] ∧
    isChordPressed [48, 60, 64, 67] "C" "Major" = false :=
  ⟨rfl, rfl, by decide, by decide, by decide⟩

/-- C1 (amended): the chord action is on exactly when the deduplicated active
pitch classes equal the target triad *and* the number of active notes equals
the pattern length, i.e. no target pitch class is doubled in another octave. -/
theorem isChordPressed_iff_image_and_card (S : List Nat) (root chordType : String)
    (rootValue : Nat) (pattern : List Nat)
    (hr : noteToMidi root = some rootValue) (hp : chordPatterns chordType = some pattern) :
    isChordPressed S root chordType = true ↔
      ((S.map (fun n => n % 12)).toFinset =
          (pattern.map (fun i => (rootValue + i) % 12)).toFinset ∧
        S.length = pattern.length) := by
  have hnd := pattern_map_nodup rootValue pattern hp
  simp only [isChordPressed, hr, hp]
  rw [Bool.and_eq_true, List.all_eq_true, beq_iff_eq]
  constructor
  · rintro ⟨hall, hlen⟩
    have hsub : (pattern.map (fun i => (rootValue + i) % 12)).toFinset ⊆
        (S.map (fun n => n % 12)).toFinset := by
      intro a ha
      rw [List.mem_toFinset] at ha ⊢
      have := hall a ha
      simpa using this
    have hcard : S.length = pattern.length := by
      rw [List.length_map, List.length_map] at hlen
      exact hlen
    refine ⟨(Finset.eq_of_subset_of_card_le hsub ?_).symm, hcard⟩
    calc (S.map (fun n => n % 12)).toFinset.card
        ≤ (S.map (fun n => n % 12)).length := List.toFinset_card_le _
      _ = pattern.length := by rw [List.length_map]; exact hcard
      _ = (pattern.map (fun i => (rootValue + i) % 12)).length := (List.length_map _ _).symm
      _ = (pattern.map (fun i => (rootValue + i) % 12)).toFinset.card :=
          (List.toFinset_card_of_nodup hnd).symm
  · rintro ⟨himg, hcard⟩
    constructor
    · intro a ha
      have : a ∈ (S.map (fun n => n % 12)).toFinset := by
        rw [himg, List.mem_toFinset]
        exact ha
      rw [List.mem_toFinset] at this
      simpa using this
    · rw [List.length_map, List.length_map]
      exact hcard

/-- C1 witness: the exact C-Major triad `{60, 64, 67}` switches the action
on. -/
theorem isChordPressed_iff_image_and_card_witness :
    noteToMidi "C" = some 0 ∧ chordPatterns "Major" = some [0, 4, 7] ∧
    isChordPressed [60, 64, 67] "C" "Major" = true :=
  ⟨rfl, rfl,
    (isChordPressed_iff_image_and_card [60, 64, 67] "C" "Major" 0 [0, 4, 7] rfl rfl).mpr
      ⟨by decide, by decide⟩⟩

theorem recordContact_of_gated {sc : Scroll} (h : sc.pipeScrollEnabled = false)
    (now : ℤ) (y : ℚ) (p : Pipe) : recordContact now y p sc = sc := by
  simp [recordContact, h]

theorem groundCeilingCollide_scroll (H : ℚ) (st : PracticeState) :
    (groundCeilingCollide H st).scroll = st.scroll := by
  simp only [groundCeilingCollide]
  split_ifs <;> rfl

theorem pipeVerticalCollide_scroll (now : ℤ) (st : PracticeState) (p : Pipe) :
    ScrollRel st.scroll (pipeVerticalCollide now st p).scroll := by
  simp only [pipeVerticalCollide]
  split_ifs <;>
    first
      | exact scrollRel_refl _
      | exact scrollRel_record _ _ _ _
      | exact scrollRel_trans (scrollRel_record _ _ _ _) (scrollRel_record _ _ _ _)

theorem pipeSideCollide_scroll (now : ℤ) (st : PracticeState) (p : Pipe) :
    ScrollRel st.scroll (pipeSideCollide now st p).scroll := by
  simp only [pipeSideCollide]
  split_ifs <;>
    first
      | exact scrollRel_refl _
      | exact scrollRel_record _ _ _ _

theorem pipeCollide_scroll (now : ℤ) (st : PracticeState) (p : Pipe) :
    ScrollRel st.scroll (pipeCollide now st p).scroll :=
  scrollRel_trans (pipeVerticalCollide_scroll now st p)
    (pipeSideCollide_scroll now (pipeVerticalCollide now st p) p)

theorem foldl_pipeCollide_scroll (now : ℤ) (pipes : List Pipe) (st : PracticeState) :
    ScrollRel st.scroll (pipes.foldl (pipeCollide now) st).scroll := by
  induction pipes generalizing st with
  | nil => exact scrollRel_refl _
  | cons p ps ih =>
    exact scrollRel_trans (pipeCollide_scroll now st p) (ih (pipeCollide now st p))

/-- C5: one practice-mode collision pass either leaves the scroll-gate state
(gate flag, recorded contact) untouched, or takes it from enabled to gated in
the same pass; in particular, while the gate is held (`pipeScrollEnabled =
false`) no collision frame ever rewrites the recorded contact. -/
theorem practiceCollisions_contact_stable (H : ℚ) (now : ℤ) (st : PracticeState)
    (pipes : List Pipe) :
    (handlePracticeCollisions H now st pipes).scroll = st.scroll ∨
    (st.scroll.pipeScrollEnabled = true ∧
      (handlePracticeCollisions H now st pipes).scroll.pipeScrollEnabled = false) := by
  have h := foldl_pipeCollide_scroll now pipes (groundCeilingCollide H st)
  rw [groundCeilingCollide_scroll] at h
  exact h

/-- C4: while gated in practice mode with a recorded contact pipe, a
`checkScrollResume` step releases the gate exactly when the timeout has
elapsed, the bird is strictly inside the contact pipe's gap band, or the bird
has moved more than the clearance threshold from the contact y; a release
clears the recorded contact, and otherwise the whole state is unchanged. -/
theorem checkScrollResume_release_iff (now : ℤ) (st : PracticeState) (p : Pipe)
    (hg : st.scroll.pipeScrollEnabled = false)
    (hp : st.scroll.collisionPipe = some p) :
    ((checkScrollResume true now st).scroll.pipeScrollEnabled = true ↔
      (now - st.scroll.collisionTime > autoResumeDelay ∨
        (st.bird.y > p.top ∧ st.bird.y < p.bottom) ∨
        |st.bird.y - st.scroll.lastCollisionY| > 40)) ∧
    ((checkScrollResume true now st).scroll.pipeScrollEnabled = true →
      (checkScrollResume true now st).scroll.collisionPipe = none) ∧
    ((checkScrollResume true now st).scroll.pipeScrollEnabled = false →
      checkScrollResume true now st = st) := by
  unfold checkScrollResume
  rw [if_pos ⟨rfl, hg⟩]
  by_cases ht : now - st.scroll.collisionTime > autoResumeDelay
  · rw [if_pos ht]
    refine ⟨?_, fun _ => rfl, fun hfalse => ?_⟩
    · simp [ht]
    · simp at hfalse
  · rw [if_neg ht]
    simp only [hp]
    by_cases hrel : (st.bird.y > p.top ∧ st.bird.y < p.bottom) ∨
        |st.bird.y - st.scroll.lastCollisionY| > 40
    · rw [if_pos hrel]
      refine ⟨?_, fun _ => rfl, fun hfalse => ?_⟩
      · simp [hrel]
      · simp at hfalse
    · rw [if_neg hrel]
      refine ⟨?_, fun htrue => ?_, fun _ => rfl⟩
      · rw [hg]
        simp only [Bool.false_eq_true, false_iff]
        push_neg
        push_neg at hrel ht
        exact ⟨ht, hrel.1, hrel.2⟩
      · rw [hg] at htrue
        exact absurd htrue (by simp)

/-- C4 witness: a gated state whose timeout has elapsed is released and its
contact cleared. -/
theorem checkScrollResume_release_iff_witness :
    witnessScrollState.scroll.pipeScrollEnabled = false ∧
    witnessScrollState.scroll.collisionPipe = some witnessPipe ∧
    (((checkScrollResume true 2000 witnessScrollState).scroll.pipeScrollEnabled = true ↔
      (2000 - witnessScrollState.scroll.collisionTime > autoResumeDelay ∨
        (witnessScrollState.bird.y > witnessPipe.top ∧
          witnessScrollState.bird.y < witnessPipe.bottom) ∨
        |witnessScrollState.bird.y - witnessScrollState.scroll.lastCollisionY| > 40)) ∧
    ((checkScrollResume true 2000 witnessScrollState).scroll.pipeScrollEnabled = true →
      (checkScrollResume true 2000 witnessScrollState).scroll.collisionPipe = none) ∧
    ((checkScrollResume true 2000 witnessScrollState).scroll.pipeScrollEnabled = false →
      checkScrollResume true 2000 witnessScrollState = witnessScrollState)) :=
  ⟨rfl, rfl, checkScrollResume_release_iff 2000 witnessScrollState witnessPipe rfl rfl⟩

theorem abs_mul_damp_le (v : ℚ) : |v * bounceDampening| ≤ |v| := by
  rw [abs_mul]
  calc |v| * |bounceDampening| ≤ |v| * 1 := by
        refine mul_le_mul_of_nonneg_left ?_ (abs_nonneg v)
        rw [abs_le]
        constructor <;> norm_num [bounceDampening]
    _ = |v| := mul_one _

theorem abs_abs_mul_damp_le (w : ℚ) : |(|w| * bounceDampening)| ≤ |w| := by
  have h := abs_mul_damp_le (|w|)
  rwa [abs_abs] at h

theorem abs_neg_abs_mul_damp_le (w : ℚ) : |(-|w|) * bounceDampening| ≤ |w| := by
  rw [neg_mul, abs_neg]
  exact abs_abs_mul_damp_le w

theorem groundCeilingCollide_vel (H : ℚ) (st : PracticeState) :
    |(groundCeilingCollide H st).bird.velocity| ≤ |st.bird.velocity| := by
  simp only [groundCeilingCollide]
  split_ifs <;> (try dsimp only)
  · exact le_trans (abs_abs_mul_damp_le _) (abs_neg_abs_mul_damp_le _)
  · exact abs_neg_abs_mul_damp_le _
  · exact abs_abs_mul_damp_le _
  · exact le_refl _

theorem pipeVerticalCollide_vel (now : ℤ) (st : PracticeState) (p : Pipe) :
    |(pipeVerticalCollide now st p).bird.velocity| ≤ |st.bird.velocity| := by
  simp only [pipeVerticalCollide]
  split_ifs <;> (try dsimp only)
  · exact le_trans (abs_neg_abs_mul_damp_le _) (abs_abs_mul_damp_le _)
  · exact abs_abs_mul_damp_le _
  · exact abs_neg_abs_mul_damp_le _
  · exact le_refl _
  · exact le_refl _

theorem pipeSideCollide_vel (now : ℤ) (st : PracticeState) (p : Pipe) :
    |(pipeSideCollide now st p).bird.velocity| ≤ |st.bird.velocity| := by
  simp only [pipeSideCollide]
  split_ifs <;> (try dsimp only) <;>
    first
      | exact le_refl _
      | exact abs_mul_damp_le _

theorem pipeCollide_vel (now : ℤ) (st : PracticeState) (p : Pipe) :
    |(pipeCollide now st p).bird.velocity| ≤ |st.bird.velocity| :=
  le_trans (pipeSideCollide_vel now (pipeVerticalCollide now st p) p)
    (pipeVerticalCollide_vel now st p)

theorem foldl_pipeCollide_vel (now : ℤ) (pipes : List Pipe) (st : PracticeState) :
    |(pipes.foldl (pipeCollide now) st).bird.velocity| ≤ |st.bird.velocity| := by
  induction pipes generalizing st with
  | nil => exact le_refl _
  | cons p ps ih =>
    exact le_trans (ih (pipeCollide now st p)) (pipeCollide_vel now st p)

theorem handlePracticeCollisions_vel (H : ℚ) (now : ℤ) (st : PracticeState)
    (pipes : List Pipe) :
    |(handlePracticeCollisions H now st pipes).bird.velocity| ≤ |st.bird.velocity| :=
  le_trans (foldl_pipeCollide_vel now pipes (groundCeilingCollide H st))
    (groundCeilingCollide_vel H st)

theorem checkScrollResume_bird (practiceMode : Bool) (now : ℤ) (st : PracticeState) :
    (checkScrollResume practiceMode now st).bird = st.bird := by
  simp only [checkScrollResume]
  rcases hcp : st.scroll.collisionPipe with _ | p <;>
    simp only [hcp] <;> split_ifs <;> rfl

theorem clamp_mul_drag_abs_le (v : ℚ) :
    |max (-birdMaxVelocity) (min birdMaxVelocity v) * (0.98 : ℚ)| ≤ birdMaxVelocity := by
  have habs : |max (-birdMaxVelocity) (min birdMaxVelocity v)| ≤ birdMaxVelocity := by
    rw [abs_le]
    constructor
    · exact le_max_left _ _
    · exact max_le (by norm_num [birdMaxVelocity]) (min_le_left _ _)
  rw [abs_mul]
  calc |max (-birdMaxVelocity) (min birdMaxVelocity v)| * |(0.98 : ℚ)|
      ≤ birdMaxVelocity * |(0.98 : ℚ)| := by
        refine mul_le_mul_of_nonneg_right habs (abs_nonneg _)
    _ ≤ birdMaxVelocity := by
        rw [abs_of_nonneg (by norm_num : (0 : ℚ) ≤ (0.98 : ℚ))]
        norm_num [birdMaxVelocity]

theorem updateBird_velocity_le (practiceMode up down : Bool) (gameSpeed : ℚ)
    (now : ℤ) (st : PracticeState) :
    |(updateBird practiceMode up down gameSpeed now st).bird.velocity| ≤
      birdMaxVelocity := by
  simp only [updateBird]
  rw [checkScrollResume_bird]
  exact clamp_mul_drag_abs_le _

/-- C3: after one frame's bird update (thrust, clamp, drag) followed by the
practice-mode collision pass over any pipe list, the bird's vertical velocity
never exceeds `maxVelocity` in magnitude, for every input combination and
every starting state — hence for every input sequence. -/
theorem frame_velocity_le_max (practiceMode up down : Bool) (gameSpeed H : ℚ)
    (now : ℤ) (st : PracticeState) (pipes : List Pipe) :
    |(handlePracticeCollisions H now
        (updateBird practiceMode up down gameSpeed now st) pipes).bird.velocity| ≤
      birdMaxVelocity :=
  le_trans
    (handlePracticeCollisions_vel H now (updateBird practiceMode up down gameSpeed now st) pipes)
    (updateBird_velocity_le practiceMode up down gameSpeed now st)

/-- C9 counterexample: a bird overlapping the ground while already moving
upward (velocity `-2`) keeps a negative velocity (`-6/5`) after one
practice-mode resolution step — the velocity's sign does not flip; the code
sets `velocity := -|velocity| * 0.6`, which is a sign flip only for downward
motion. -/
theorem ground_bounce_sign_cex :
    groundStateUp.bird.y = (480 : ℚ) - 50 + 1 ∧
    groundStateUp.bird.velocity < 0 ∧
    (handlePracticeCollisions 480 0 groundStateUp []).bird.velocity = -(6/5) ∧
    (handlePracticeCollisions 480 0 groundStateUp []).bird.velocity < 0 := by
  refine ⟨by norm_num [groundStateUp], by norm_num [groundStateUp], ?_, ?_⟩ <;>
    · simp only [handlePracticeCollisions, List.foldl_nil, groundCeilingCollide,
        groundStateUp, bounceDampening]
      norm_num

/-- C9 (amended): in practice mode a bird at `y = groundY + 1` is clamped to
`y = groundY - radius` and its velocity becomes `-|velocity| * 0.6` — damped
and directed upward; the sign flips exactly when the incoming velocity was
downward (positive). -/
theorem ground_bounce_clamp_damp (H : ℚ) (now : ℤ) (st : PracticeState)
    (hy : st.bird.y = H - 50 + 1) (hr : 0 ≤ st.bird.radius)
    (hH : 50 + 2 * st.bird.radius ≤ H) :
    (handlePracticeCollisions H now st []).bird.y = H - 50 - st.bird.radius ∧
    (handlePracticeCollisions H now st []).bird.velocity =
      -|st.bird.velocity| * bounceDampening ∧
    (0 < st.bird.velocity →
      (handlePracticeCollisions H now st []).bird.velocity < 0) := by
  have hA : st.bird.y + st.bird.radius > H - 50 := by
    rw [hy]; linarith
  have hB : ¬(H - 50 - st.bird.radius - st.bird.radius < 0) := by
    push_neg; linarith
  simp only [handlePracticeCollisions, List.foldl_nil, groundCeilingCollide, if_pos hA]
  rw [if_neg hB]
  refine ⟨rfl, rfl, fun hv => ?_⟩
  show -|st.bird.velocity| * bounceDampening < 0
  rw [abs_of_pos hv]
  have hd : (0 : ℚ) < bounceDampening := by norm_num [bounceDampening]
  nlinarith

/-- C9 witness: at `H = 480`, `groundY = 430`, a falling bird at `y = 431`
with velocity `3` is clamped to `y = 415` and bounced to a negative
velocity. -/
theorem ground_bounce_clamp_damp_witness :
    groundStateDown.bird.y = (480 : ℚ) - 50 + 1 ∧
    (0 : ℚ) ≤ groundStateDown.bird.radius ∧
    50 + 2 * groundStateDown.bird.radius ≤ (480 : ℚ) ∧
    ((handlePracticeCollisions 480 0 groundStateDown []).bird.y =
        480 - 50 - groundStateDown.bird.radius ∧
      (handlePracticeCollisions 480 0 groundStateDown []).bird.velocity =
        -|groundStateDown.bird.velocity| * bounceDampening ∧
      (0 < groundStateDown.bird.velocity →
        (handlePracticeCollisions 480 0 groundStateDown []).bird.velocity < 0)) :=
  ⟨by norm_num [groundStateDown], by norm_num [groundStateDown],
    by norm_num [groundStateDown],
    ground_bounce_clamp_damp 480 0 groundStateDown (by norm_num [groundStateDown])
      (by norm_num [groundStateDown]) (by norm_num [groundStateDown])⟩

/-- C6: ending an active tracking session first flushes any queued events as
one batch request, then reports the aggregate final score
`max(0, 10·successes − 2·errors)` together with the raw counters. -/
theorem endTrackingSession_flush_then_score (ts : TrackingState) (tr : Tracker)
    (sid : ℤ) (htr : ts.tracker = some tr) (hact : ts.sessionActive = true)
    (hsid : tr.sessionId = some sid) (hsid0 : sid ≠ 0) (hbm : tr.batchMode = true) :
    (endTrackingSession ts).2 =
      (if tr.eventQueue = [] then [] else [Request.batch tr.eventQueue]) ++
        [Request.endSessionReq sid
          (max 0 ((ts.successCount : ℤ) * 10 - (ts.errorCount : ℤ) * 2))
          ts.successCount ts.errorCount] := by
  have hns : tr.noSession = false := by
    simp [Tracker.noSession, hsid, hsid0]
  by_cases hq : tr.eventQueue = [] <;>
    simp [endTrackingSession, htr, hact, Tracker.endSession, hns, hsid,
      Tracker.flushQueue, hbm, hq, mul_comm]

/-- C6 witness: a session with 2 successes, 1 error and one queued event
flushes the batch and reports score `max 0 (2*10 - 1*2) = 18`. -/
theorem endTrackingSession_flush_then_score_witness :
    witnessTrackingState.tracker = some witnessTracker ∧
    witnessTrackingState.sessionActive = true ∧
    witnessTracker.sessionId = some 7 ∧ (7 : ℤ) ≠ 0 ∧
    witnessTracker.batchMode = true ∧
    (endTrackingSession witnessTrackingState).2 =
      (if witnessTracker.eventQueue = [] then [] else
        [Request.batch witnessTracker.eventQueue]) ++
        [Request.endSessionReq 7
          (max 0 ((witnessTrackingState.successCount : ℤ) * 10 -
            (witnessTrackingState.errorCount : ℤ) * 2))
          witnessTrackingState.successCount witnessTrackingState.errorCount] :=
  ⟨rfl, rfl, rfl, by decide, rfl,
    endTrackingSession_flush_then_score witnessTrackingState witnessTracker 7
      rfl rfl rfl (by decide) rfl⟩

/-- C7: a recorded action event's correctness flag is true exactly when the
expected and played ids are both non-null and equal; the success counter then
increments by exactly 1 (otherwise the error counter does), and the event
carries the next sequence position. -/
theorem handlePianoAction_event_spec (ts : TrackingState) (tr : Tracker)
    (action : String) (details : Option ActionDetails) (now : ℤ)
    (sid expectedId : ℤ)
    (hact : ts.sessionActive = true) (hen : ts.enabled = true) (hrdy : ts.ready = true)
    (htr : ts.tracker = some tr) (hsid : tr.sessionId = some sid) (hsid0 : sid ≠ 0)
    (hexp : ts.expectedIds.get action = some expectedId) (hexp0 : expectedId ≠ 0) :
    ∃ e : TrackerEvent,
      (handlePianoAction ts action details now).2.2 = some e ∧
      e.expectedChordId = some expectedId ∧
      e.playedChordId = lookupPlayedId ts details ∧
      (e.isCorrect = true ↔
        (e.expectedChordId.isSome = true ∧ e.playedChordId.isSome = true ∧
          e.expectedChordId = e.playedChordId)) ∧
      e.positionInProgression = ts.sequence + 1 ∧
      (handlePianoAction ts action details now).1.sequence = ts.sequence + 1 ∧
      (handlePianoAction ts action details now).1.successCount =
        ts.successCount + (if e.isCorrect then 1 else 0) ∧
      (handlePianoAction ts action details now).1.errorCount =
        ts.errorCount + (if e.isCorrect then 0 else 1) := by
  have hns : tr.noSession = false := by
    simp [Tracker.noSession, hsid, hsid0]
  have hcfg : isTrackingConfigured ts = true := by
    simp [isTrackingConfigured, hen, hrdy, htr]
  simp only [handlePianoAction, hact, hcfg, htr, hexp, if_neg hexp0,
    Tracker.trackEvent, hns, Bool.false_eq_true, not_true_eq_false,
    and_true, not_false_eq_true]
  rcases hpl : lookupPlayedId ts details with _ | v
  · rw [if_neg (show ¬((none : Option ℤ).isSome = true ∧
        (none : Option ℤ) = some expectedId) by simp)]
    exact ⟨_, rfl, rfl, rfl, by simp, rfl, rfl,
      by simp [computeResponseTime], by simp [computeResponseTime]⟩
  · by_cases hv : v = expectedId
    · subst hv
      rw [if_pos (show (some v).isSome = true ∧
          (some v : Option ℤ) = some v from ⟨rfl, rfl⟩)]
      exact ⟨_, rfl, rfl, rfl, by simp, rfl, rfl,
        by simp [computeResponseTime], by simp [computeResponseTime]⟩
    · rw [if_neg (show ¬((some v).isSome = true ∧
          (some v : Option ℤ) = some expectedId) by simp [hv])]
      exact ⟨_, rfl, rfl, rfl, by simp [Ne.symm hv], rfl, rfl,
        by simp [computeResponseTime, Ne.symm hv],
        by simp [computeResponseTime, Ne.symm hv]⟩

/-- C7 witness: expected up-id 42, played middle C resolving to id 42 — the
event is correct and the success counter increments from 2 to 3. -/
theorem handlePianoAction_event_spec_witness :
    witnessTrackingState.sessionActive = true ∧
    witnessTrackingState.expectedIds.get "up" = some 42 ∧
    (∃ e : TrackerEvent,
      (handlePianoAction witnessTrackingState "up" (some witnessDetails) 9).2.2 = some e ∧
      e.expectedChordId = some 42 ∧
      e.playedChordId = lookupPlayedId witnessTrackingState (some witnessDetails) ∧
      (e.isCorrect = true ↔
        (e.expectedChordId.isSome = true ∧ e.playedChordId.isSome = true ∧
          e.expectedChordId = e.playedChordId)) ∧
      e.positionInProgression = witnessTrackingState.sequence + 1 ∧
      (handlePianoAction witnessTrackingState "up" (some witnessDetails) 9).1.sequence =
        witnessTrackingState.sequence + 1 ∧
      (handlePianoAction witnessTrackingState "up" (some witnessDetails) 9).1.successCount =
        witnessTrackingState.successCount + (if e.isCorrect then 1 else 0) ∧
      (handlePianoAction witnessTrackingState "up" (some witnessDetails) 9).1.errorCount =
        witnessTrackingState.errorCount + (if e.isCorrect then 0 else 1)) :=
  ⟨rfl, rfl,
    handlePianoAction_event_spec witnessTrackingState witnessTracker "up"
      (some witnessDetails) 9 7 42 rfl rfl rfl rfl rfl (by decide) rfl (by decide)⟩

end HtmlGames
